import Mathlib

/-!
Verification development for the jomhack python bootcamp database programs.

The repository holds two interactive CRUD programs over a users/posts
data model: `src/py/15_sqlite.py` (relational store) and
`src/py/16_mongo.py` (document store).  Each is shallowly embedded
below: the database content is an explicit state value, every
repository operation of the `DatabaseManager` class becomes a pure
state-passing function, store-generated timestamps become a logical
clock incremented at each insert, and store failures are made explicit
either inside the model (the duplicate-email integrity error, which is
a function of the state) or through a fault flag on the `_run`
variants (any other failure raised by the store client during the
call).  The interactive menu handlers that parse numeric fields are
embedded as functions over the raw input strings.
-/

/-- Model of CPython `int(s)` applied to an already stripped string:
after an optional sign the string must be a nonempty ASCII digit
sequence in which an underscore may only stand between two digits.
Checks the digit sequence that follows the first character. -/
def pyDigitsCore : List Char → Bool
  | [] => true
  | '_' :: c :: rest => c.isDigit && pyDigitsCore rest
  | ['_'] => false
  | c :: rest => c.isDigit && pyDigitsCore rest

/-- A valid unsigned digit sequence for `int`: starts with a digit,
then `pyDigitsCore`. -/
def pyDigits : List Char → Bool
  | [] => false
  | c :: rest => c.isDigit && pyDigitsCore rest

/-- Numeric value of a digit sequence, skipping underscores. -/
def digitsVal (cs : List Char) : Nat :=
  cs.foldl (fun acc c => if c == '_' then acc else acc * 10 + (c.toNat - '0'.toNat)) 0

/-- Model of Python `int(s)` for a stripped string: `some` of the value
when the string parses as a (signed) decimal integer, `none` when
`int` would raise `ValueError`. -/
def pyParseInt (s : String) : Option Int :=
  match s.toList with
  | '+' :: rest => if pyDigits rest then some (Int.ofNat (digitsVal rest)) else none
  | '-' :: rest => if pyDigits rest then some (-(Int.ofNat (digitsVal rest))) else none
  | cs => if pyDigits cs then some (Int.ofNat (digitsVal cs)) else none

/-- One create-user request collected by the shell: name, email, age. -/
structure Entry where
  name : String
  email : String
  age : Int
deriving DecidableEq, Repr

/-- Outcome of one menu handler body: it either ran to its normal end
(printing a success or failure message) or stopped in the
`except ValueError` branch with an invalid-number diagnostic. -/
inductive Step
  | completed
  | invalidNumber
deriving DecidableEq, Repr

namespace Sqlite

/-- A row of the `users` table of `15_sqlite.py`: integer autoincrement
primary key, name, unique email, age, creation timestamp. -/
structure User where
  id : Int
  name : String
  email : String
  age : Int
  created_at : Nat
deriving DecidableEq, Repr

/-- A row of the `posts` table: integer primary key, owning user id
(declared as a foreign key but not enforced, since the program never
enables foreign-key checking), title, content, creation timestamp. -/
structure Post where
  id : Int
  user_id : Int
  title : String
  content : String
  created_at : Nat
deriving DecidableEq, Repr

/-- The state of the sqlite database file: the two tables, the next
autoincrement row id of each, and a logical clock standing for
`CURRENT_TIMESTAMP`, incremented at every insert. -/
structure DB where
  users : List User
  posts : List Post
  nextUserId : Int
  nextPostId : Int
  clock : Nat
deriving DecidableEq, Repr

/-- `init_database`: fresh empty tables; sqlite row ids start at 1. -/
def init_database : DB :=
  { users := [], posts := [], nextUserId := 1, nextPostId := 1, clock := 0 }

/-- Whether an insert with this email violates the `UNIQUE` constraint
on `users.email`. -/
def emailTaken (db : DB) (email : String) : Bool :=
  db.users.any (fun u => u.email == email)

/-- `DatabaseManager.create_user`: INSERT INTO users; on the UNIQUE
email violation sqlite raises `IntegrityError`, which the method
catches, printing the error and returning `None`; otherwise it returns
`cursor.lastrowid`, the fresh autoincrement id. -/
def create_user (db : DB) (name email : String) (age : Int) :
    Option Int × DB :=
  if emailTaken db email then
    (none, db)
  else
    (some db.nextUserId,
     { db with
        users := db.users ++ [⟨db.nextUserId, name, email, age, db.clock⟩],
        nextUserId := db.nextUserId + 1,
        clock := db.clock + 1 })

/-- `DatabaseManager.create_post`: INSERT INTO posts with whatever
user id was given (no existence check, foreign keys are not enforced),
returning `cursor.lastrowid`. -/
def create_post (db : DB) (user_id : Int) (title content : String) :
    Int × DB :=
  (db.nextPostId,
   { db with
      posts := db.posts ++ [⟨db.nextPostId, user_id, title, content, db.clock⟩],
      nextPostId := db.nextPostId + 1,
      clock := db.clock + 1 })

/-- `DatabaseManager.get_all_users`: SELECT * FROM users. -/
def get_all_users (db : DB) : List User :=
  db.users

/-- The projected row returned by `get_user_posts`: the SELECT lists
`p.id, p.title, p.content, p.created_at`. -/
structure PostRow where
  id : Int
  title : String
  content : String
  created_at : Nat
deriving DecidableEq, Repr

/-- Projection of a `posts` row to the selected columns. -/
def postToRow (p : Post) : PostRow :=
  ⟨p.id, p.title, p.content, p.created_at⟩

/-- Descending order on creation time, as in `ORDER BY created_at DESC`. -/
def postLe (a b : Post) : Prop :=
  b.created_at ≤ a.created_at

instance : DecidableRel postLe :=
  fun a b => inferInstanceAs (Decidable (b.created_at ≤ a.created_at))

instance : IsTotal Post postLe :=
  ⟨fun a b => Nat.le_total b.created_at a.created_at⟩

instance : IsTrans Post postLe :=
  ⟨fun _ _ _ h1 h2 => Nat.le_trans h2 h1⟩

/-- `DatabaseManager.get_user_posts`: SELECT the rows whose `user_id`
matches, ORDER BY `created_at` DESC, projected to the four selected
columns. -/
def get_user_posts (db : DB) (user_id : Int) : List PostRow :=
  ((db.posts.filter (fun p => p.user_id == user_id)).insertionSort postLe).map postToRow

/-- `DatabaseManager.delete_user`: DELETE FROM posts WHERE user_id
matches, then DELETE FROM users WHERE id matches; returns
`cursor.rowcount > 0`, where `rowcount` counts the rows removed by the
last statement, the users delete. -/
def delete_user (db : DB) (user_id : Int) : Bool × DB :=
  (db.users.any (fun u => u.id == user_id),
   { db with
      users := db.users.filter (fun u => !(u.id == user_id)),
      posts := db.posts.filter (fun p => !(p.user_id == user_id)) })

/-- Store-client errors of the sqlite variant: the integrity error
raised on a constraint violation, and any other operational failure of
the sqlite library. -/
inductive SqErr
  | integrity
  | operational
deriving DecidableEq, Repr

/-- `create_user` with store fault injection. `fault = true` means the
sqlite call raises an operational (non-integrity) error: the method
only catches `sqlite3.IntegrityError`, so that error escapes.  With no
fault the integrity error on a duplicate email is raised and caught
inside, as modelled by `create_user`. -/
def create_user_run (fault : Bool) (db : DB) (name email : String) (age : Int) :
    Except SqErr (Option Int × DB) :=
  if fault then Except.error SqErr.operational
  else Except.ok (create_user db name email age)

/-- `create_post` with store fault injection: the method has no
try/except at all, so any store error escapes. -/
def create_post_run (fault : Bool) (db : DB) (user_id : Int) (title content : String) :
    Except SqErr (Int × DB) :=
  if fault then Except.error SqErr.operational
  else Except.ok (create_post db user_id title content)

/-- `get_all_users` with store fault injection: no try/except, any
store error escapes. -/
def get_all_users_run (fault : Bool) (db : DB) :
    Except SqErr (List User) :=
  if fault then Except.error SqErr.operational
  else Except.ok (get_all_users db)

/-- `get_user_posts` with store fault injection: no try/except, any
store error escapes. -/
def get_user_posts_run (fault : Bool) (db : DB) (user_id : Int) :
    Except SqErr (List PostRow) :=
  if fault then Except.error SqErr.operational
  else Except.ok (get_user_posts db user_id)

/-- `delete_user` with store fault injection: no try/except, any store
error escapes. -/
def delete_user_run (fault : Bool) (db : DB) (user_id : Int) :
    Except SqErr (Bool × DB) :=
  if fault then Except.error SqErr.operational
  else Except.ok (delete_user db user_id)

/-- Menu choice 1 of `main`: read name, email and the age line; inside
the try, `int(...)` either parses the age and the handler calls
`create_user` and prints the outcome, or raises `ValueError`, caught
by the handler, which prints the invalid-age diagnostic and leaves the
database untouched. -/
def choice1 (db : DB) (name email ageStr : String) : DB × Step :=
  match pyParseInt ageStr with
  | some age => ((create_user db name email age).2, Step.completed)
  | none => (db, Step.invalidNumber)

/-- Menu choice 3: the user id line is parsed first inside the try;
on `ValueError` the handler prints the diagnostic and never calls
`create_post`. -/
def choice3 (db : DB) (userIdStr title content : String) : DB × Step :=
  match pyParseInt userIdStr with
  | some uid => ((create_post db uid title content).2, Step.completed)
  | none => (db, Step.invalidNumber)

/-- Menu choice 4: parse the user id, then `get_user_posts` (read
only); on `ValueError` print the diagnostic. -/
def choice4 (db : DB) (userIdStr : String) : DB × Step :=
  match pyParseInt userIdStr with
  | some _ => (db, Step.completed)
  | none => (db, Step.invalidNumber)

/-- Menu choice 5: parse the user id, then ask for confirmation and
call `delete_user` only on a `y` answer; on `ValueError` print the
diagnostic without touching the store. -/
def choice5 (db : DB) (userIdStr confirm : String) : DB × Step :=
  match pyParseInt userIdStr with
  | some uid =>
      if confirm.toLower == "y" then ((delete_user db uid).2, Step.completed)
      else (db, Step.completed)
  | none => (db, Step.invalidNumber)

/-- The shell loop applied to choice-1 requests only, recording each
result of `create_user` together with the final state (used to state
the create-N/list-N property). -/
def createUsersAcc (db : DB) : List Entry → List (Option Int) × DB
  | [] => ([], db)
  | e :: rest =>
      let r := create_user db e.name e.email e.age
      let rec2 := createUsersAcc r.2 rest
      (r.1 :: rec2.1, rec2.2)

end Sqlite

namespace Mongo

/-- ASCII hex digit test, as accepted inside an ObjectId string. -/
def isHexChar (c : Char) : Bool :=
  c.isDigit || (('a' ≤ c) && (c ≤ 'f')) || (('A' ≤ c) && (c ≤ 'F'))

/-- Model of `bson.objectid.ObjectId.is_valid` on a string argument: a
24-character hexadecimal string. -/
def ObjectId_is_valid (s : String) : Bool :=
  s.length == 24 && s.toList.all isHexChar

/-- A BSON key as used by the program: either an ObjectId, identified
with its lowercase 24-hex-character representation, or an arbitrary
raw string left as is. -/
inductive Key
  | oid (hex : String)
  | str (s : String)
deriving DecidableEq, Repr

/-- The key normalization applied identically in `create_post`,
`get_user_posts` and `delete_user`:
`ObjectId(user_id) if ObjectId.is_valid(user_id) else user_id`.
Constructing an ObjectId from a hex string is case insensitive, so the
ObjectId case keeps the lowercase form. -/
def normalizeId (s : String) : Key :=
  if ObjectId_is_valid s then Key.oid s.toLower else Key.str s

/-- Model of Python `str()` on a stored key: an ObjectId prints as its
lowercase hex representation, a raw string as itself. -/
def keyToStr : Key → String
  | Key.oid h => h
  | Key.str s => s

/-- A fresh ObjectId hex string generated by the driver, modelled as a
counter value padded to 24 lowercase hex characters. -/
def natToHex24 (n : Nat) : String :=
  let ds := Nat.toDigits 16 n
  String.mk (List.replicate (24 - ds.length) '0' ++ ds)

/-- A document of the `users` collection of `16_mongo.py`. -/
structure User where
  _id : Key
  name : String
  email : String
  age : Int
  created_at : Nat
deriving DecidableEq, Repr

/-- A document of the `posts` collection: its own id, the normalized
owning key stored by `create_post`, title, content, creation time. -/
structure Post where
  _id : Key
  user_id : Key
  title : String
  content : String
  created_at : Nat
deriving DecidableEq, Repr

/-- The state of the document store: the two collections, the counter
feeding fresh ObjectId values, and a logical clock standing for
`datetime.now()`, incremented at every insert. -/
structure DB where
  users : List User
  posts : List Post
  counter : Nat
  clock : Nat
deriving DecidableEq, Repr

/-- The state right after `init_database` created the collections and
the indexes (unique on `users.email`, secondary on `posts.user_id`). -/
def init_database : DB :=
  { users := [], posts := [], counter := 0, clock := 0 }

/-- The ObjectId the driver assigns to the next inserted document. -/
def freshId (db : DB) : Key :=
  Key.oid (natToHex24 db.counter)

/-- Whether an insert with this email violates the unique index on
`users.email`. -/
def emailTaken (db : DB) (email : String) : Bool :=
  db.users.any (fun u => u.email == email)

/-- `DatabaseManager.create_user`: insert the user document; on the
unique-index violation the driver raises `DuplicateKeyError`, caught
by the blanket `except Exception`, which prints the error and returns
`None`; otherwise return `str(result.inserted_id)`. -/
def create_user (db : DB) (name email : String) (age : Int) :
    Option String × DB :=
  if emailTaken db email then
    (none, db)
  else
    (some (keyToStr (freshId db)),
     { db with
        users := db.users ++ [⟨freshId db, name, email, age, db.clock⟩],
        counter := db.counter + 1,
        clock := db.clock + 1 })

/-- `DatabaseManager.create_post`: normalize the user id, insert the
post document with it (no check that the user exists), and return
`str(result.inserted_id)`. -/
def create_post (db : DB) (user_id title content : String) :
    Option String × DB :=
  let user_object_id := normalizeId user_id
  (some (keyToStr (freshId db)),
   { db with
      posts := db.posts ++ [⟨freshId db, user_object_id, title, content, db.clock⟩],
      counter := db.counter + 1,
      clock := db.clock + 1 })

/-- The user document after the display pass of `get_all_users`, which
replaces the `_id` field by its string form. -/
structure UserV where
  _id : String
  name : String
  email : String
  age : Int
  created_at : Nat
deriving DecidableEq, Repr

/-- `DatabaseManager.get_all_users`: find all user documents and
stringify each `_id`. -/
def get_all_users (db : DB) : List UserV :=
  db.users.map (fun u => ⟨keyToStr u._id, u.name, u.email, u.age, u.created_at⟩)

/-- Descending order on creation time, as in `.sort("created_at", -1)`. -/
def postLe (a b : Post) : Prop :=
  b.created_at ≤ a.created_at

instance : DecidableRel postLe :=
  fun a b => inferInstanceAs (Decidable (b.created_at ≤ a.created_at))

instance : IsTotal Post postLe :=
  ⟨fun a b => Nat.le_total b.created_at a.created_at⟩

instance : IsTrans Post postLe :=
  ⟨fun _ _ _ h1 h2 => Nat.le_trans h2 h1⟩

/-- The post document after the display pass of `get_user_posts`,
which replaces `_id` and `user_id` by their string forms. -/
structure PostV where
  _id : String
  user_id : String
  title : String
  content : String
  created_at : Nat
deriving DecidableEq, Repr

/-- Stringification applied to each returned post. -/
def postToView (p : Post) : PostV :=
  ⟨keyToStr p._id, keyToStr p.user_id, p.title, p.content, p.created_at⟩

/-- `DatabaseManager.get_user_posts`: normalize the user id, find the
posts whose `user_id` equals the normalized key, sort by `created_at`
descending, stringify the id fields. -/
def get_user_posts (db : DB) (user_id : String) : List PostV :=
  let key := normalizeId user_id
  ((db.posts.filter (fun p => p.user_id == key)).insertionSort postLe).map postToView

/-- `DatabaseManager.delete_user`: normalize the user id, delete_many
the posts with that owning key, then delete_one the user with that
`_id` (removing the first matching document); return
`result.deleted_count > 0`. -/
def delete_user (db : DB) (user_id : String) : Bool × DB :=
  let key := normalizeId user_id
  (db.users.any (fun u => u._id == key),
   { db with
      users := db.users.eraseP (fun u => u._id == key),
      posts := db.posts.filter (fun p => !(p.user_id == key)) })

/-- A store-client failure of the mongo variant (any exception raised
by pymongo during the call). -/
inductive MgErr
  | exn
deriving DecidableEq, Repr

/-- `create_user` with store fault injection: the blanket
`except Exception` catches every store failure, prints it and returns
`None`, so the method never lets an exception escape. -/
def create_user_run (fault : Bool) (db : DB) (name email : String) (age : Int) :
    Except MgErr (Option String × DB) :=
  if fault then Except.ok (none, db)
  else Except.ok (create_user db name email age)

/-- `create_post` with store fault injection: every failure is caught,
printed, and turned into `None`. -/
def create_post_run (fault : Bool) (db : DB) (user_id title content : String) :
    Except MgErr (Option String × DB) :=
  if fault then Except.ok (none, db)
  else Except.ok (create_post db user_id title content)

/-- `get_all_users` with store fault injection: every failure is
caught, printed, and turned into the empty list. -/
def get_all_users_run (fault : Bool) (db : DB) :
    Except MgErr (List UserV) :=
  if fault then Except.ok []
  else Except.ok (get_all_users db)

/-- `get_user_posts` with store fault injection: every failure is
caught, printed, and turned into the empty list. -/
def get_user_posts_run (fault : Bool) (db : DB) (user_id : String) :
    Except MgErr (List PostV) :=
  if fault then Except.ok []
  else Except.ok (get_user_posts db user_id)

/-- `delete_user` with store fault injection: every failure is caught,
printed, and turned into `False` with the state as the store left it. -/
def delete_user_run (fault : Bool) (db : DB) (user_id : String) :
    Except MgErr (Bool × DB) :=
  if fault then Except.ok (false, db)
  else Except.ok (delete_user db user_id)

/-- Menu choice 1 of the mongo `main`: the age line is parsed inside
the try; on `ValueError` the handler prints the invalid-age diagnostic
and never calls `create_user`.  The other mongo menu choices read the
user id as a plain string and parse nothing. -/
def choice1 (db : DB) (name email ageStr : String) : DB × Step :=
  match pyParseInt ageStr with
  | some age => ((create_user db name email age).2, Step.completed)
  | none => (db, Step.invalidNumber)

/-- The shell loop applied to choice-1 requests only, recording each
result of `create_user` together with the final state. -/
def createUsersAcc (db : DB) : List Entry → List (Option String) × DB
  | [] => ([], db)
  | e :: rest =>
      let r := create_user db e.name e.email e.age
      let rec2 := createUsersAcc r.2 rest
      (r.1 :: rec2.1, rec2.2)

end Mongo

/-- C1: for every user identifier, deleteUser deletes exactly the posts
whose owning user identifier equals it (after normalization, in the
mongo variant) and the user with that identifier, and returns true
exactly when such a user existed.  In the mongo variant the user delete
is a delete_one, removing the first matching document. -/
theorem C1_delete_user_cascades_then_reports_existence
    (db : Sqlite.DB) (uid : Int) (mdb : Mongo.DB) (u : String) :
    (∀ p : Sqlite.Post,
        p ∈ (Sqlite.delete_user db uid).2.posts ↔ p ∈ db.posts ∧ p.user_id ≠ uid) ∧
    (∀ v : Sqlite.User,
        v ∈ (Sqlite.delete_user db uid).2.users ↔ v ∈ db.users ∧ v.id ≠ uid) ∧
    ((Sqlite.delete_user db uid).1 = true ↔ ∃ v ∈ db.users, v.id = uid) ∧
    (∀ p : Mongo.Post,
        p ∈ (Mongo.delete_user mdb u).2.posts ↔
          p ∈ mdb.posts ∧ p.user_id ≠ Mongo.normalizeId u) ∧
    ((Mongo.delete_user mdb u).2.users =
        mdb.users.eraseP (fun v => v._id == Mongo.normalizeId u)) ∧
    ((Mongo.delete_user mdb u).1 = true ↔ ∃ v ∈ mdb.users, v._id = Mongo.normalizeId u) := by
  refine ⟨?_, ?_, ?_, ?_, rfl, ?_⟩ <;>
    simp [Sqlite.delete_user, Mongo.delete_user, List.mem_filter, List.any_eq_true]

/-- C2: creating a user whose email is already stored fails with the
None sentinel, raises nothing out of the method, and leaves the stored
users unchanged, in both variants. -/
theorem C2_duplicate_email_returns_none_without_insert
    (db : Sqlite.DB) (n : String) (E : String) (a : Int)
    (mdb : Mongo.DB) (n2 : String) (a2 : Int)
    (h1 : ∃ v ∈ db.users, v.email = E)
    (h2 : ∃ v ∈ mdb.users, v.email = E) :
    Sqlite.create_user db n E a = (none, db) ∧
    Sqlite.create_user_run false db n E a = Except.ok (none, db) ∧
    Mongo.create_user mdb n2 E a2 = (none, mdb) ∧
    Mongo.create_user_run false mdb n2 E a2 = Except.ok (none, mdb) := by
  have hb1 : Sqlite.emailTaken db E = true := by
    simp only [Sqlite.emailTaken, List.any_eq_true, beq_iff_eq]
    exact h1
  have hb2 : Mongo.emailTaken mdb E = true := by
    simp only [Mongo.emailTaken, List.any_eq_true, beq_iff_eq]
    exact h2
  refine ⟨?_, ?_, ?_, ?_⟩ <;>
    simp [Sqlite.create_user, Sqlite.create_user_run,
          Mongo.create_user, Mongo.create_user_run, hb1, hb2]

/-- Witness for C2 at a concrete store holding the email already. -/
theorem C2_witness :
    Sqlite.create_user ⟨[⟨1, "Ada", "ada@example.com", 30, 0⟩], [], 2, 1, 1⟩
        "Bob" "ada@example.com" 25 =
      (none, ⟨[⟨1, "Ada", "ada@example.com", 30, 0⟩], [], 2, 1, 1⟩) ∧
    Sqlite.create_user_run false ⟨[⟨1, "Ada", "ada@example.com", 30, 0⟩], [], 2, 1, 1⟩
        "Bob" "ada@example.com" 25 =
      Except.ok (none, ⟨[⟨1, "Ada", "ada@example.com", 30, 0⟩], [], 2, 1, 1⟩) ∧
    Mongo.create_user ⟨[⟨Mongo.Key.str "u1", "Ada", "ada@example.com", 30, 0⟩], [], 1, 1⟩
        "Bob" "ada@example.com" 25 =
      (none, ⟨[⟨Mongo.Key.str "u1", "Ada", "ada@example.com", 30, 0⟩], [], 1, 1⟩) ∧
    Mongo.create_user_run false ⟨[⟨Mongo.Key.str "u1", "Ada", "ada@example.com", 30, 0⟩], [], 1, 1⟩
        "Bob" "ada@example.com" 25 =
      Except.ok (none, ⟨[⟨Mongo.Key.str "u1", "Ada", "ada@example.com", 30, 0⟩], [], 1, 1⟩) :=
  C2_duplicate_email_returns_none_without_insert
    ⟨[⟨1, "Ada", "ada@example.com", 30, 0⟩], [], 2, 1, 1⟩ "Bob" "ada@example.com" 25
    ⟨[⟨Mongo.Key.str "u1", "Ada", "ada@example.com", 30, 0⟩], [], 1, 1⟩ "Bob" 25
    (by decide) (by decide)

/-- Counterexample to C3 as stated: in the sqlite variant,
`create_post` has no try/except, so a store failure raised inside it
propagates out of the operation as an exception instead of being
converted to a sentinel. -/
theorem C3_counterexample_sqlite_create_post_propagates :
    Sqlite.create_post_run true Sqlite.init_database 1 "Hello" "World" =
      Except.error Sqlite.SqErr.operational := rfl

/-- C3 amended: in the mongo variant every repository operation
catches every store failure and returns the printed-diagnostic
sentinel; in the sqlite variant only create_user has a handler and it
catches only the integrity error (duplicate email, yielding None),
while any other store failure, in create_user or in any other
operation, propagates out as an exception. -/
theorem C3_amended_error_containment
    (fault : Bool) (db : Sqlite.DB) (n e t c : String) (a uid : Int)
    (mdb : Mongo.DB) (u : String)
    (hdup : Sqlite.emailTaken db e = true) :
    Mongo.create_user_run true mdb n e a = Except.ok (none, mdb) ∧
    Mongo.create_post_run true mdb u t c = Except.ok (none, mdb) ∧
    Mongo.get_all_users_run true mdb = Except.ok [] ∧
    Mongo.get_user_posts_run true mdb u = Except.ok [] ∧
    Mongo.delete_user_run true mdb u = Except.ok (false, mdb) ∧
    (Mongo.create_user_run fault mdb n e a).isOk = true ∧
    (Mongo.create_post_run fault mdb u t c).isOk = true ∧
    (Mongo.get_all_users_run fault mdb).isOk = true ∧
    (Mongo.get_user_posts_run fault mdb u).isOk = true ∧
    (Mongo.delete_user_run fault mdb u).isOk = true ∧
    Sqlite.create_user_run false db n e a = Except.ok (none, db) ∧
    Sqlite.create_user_run true db n e a = Except.error Sqlite.SqErr.operational ∧
    Sqlite.create_post_run true db uid t c = Except.error Sqlite.SqErr.operational ∧
    Sqlite.get_all_users_run true db = Except.error Sqlite.SqErr.operational ∧
    Sqlite.get_user_posts_run true db uid = Except.error Sqlite.SqErr.operational ∧
    Sqlite.delete_user_run true db uid = Except.error Sqlite.SqErr.operational := by
  cases fault <;>
    simp [Mongo.create_user_run, Mongo.create_post_run, Mongo.get_all_users_run,
          Mongo.get_user_posts_run, Mongo.delete_user_run,
          Sqlite.create_user_run, Sqlite.create_post_run, Sqlite.get_all_users_run,
          Sqlite.get_user_posts_run, Sqlite.delete_user_run,
          Sqlite.create_user, Except.isOk, Except.toBool, hdup]

/-- Witness for the amended C3 at a concrete store and a real fault. -/
theorem C3_amended_witness :
    Mongo.create_user_run true Mongo.init_database "Ada" "a" 30 =
      Except.ok (none, Mongo.init_database) ∧
    Mongo.create_post_run true Mongo.init_database "1" "t" "c" =
      Except.ok (none, Mongo.init_database) ∧
    Mongo.get_all_users_run true Mongo.init_database = Except.ok [] ∧
    Mongo.get_user_posts_run true Mongo.init_database "1" = Except.ok [] ∧
    Mongo.delete_user_run true Mongo.init_database "1" = Except.ok (false, Mongo.init_database) ∧
    (Mongo.create_user_run true Mongo.init_database "Ada" "a" 30).isOk = true ∧
    (Mongo.create_post_run true Mongo.init_database "1" "t" "c").isOk = true ∧
    (Mongo.get_all_users_run true Mongo.init_database).isOk = true ∧
    (Mongo.get_user_posts_run true Mongo.init_database "1").isOk = true ∧
    (Mongo.delete_user_run true Mongo.init_database "1").isOk = true ∧
    Sqlite.create_user_run false ⟨[⟨1, "Eve", "a", 20, 0⟩], [], 2, 1, 1⟩ "Ada" "a" 30 =
      Except.ok (none, ⟨[⟨1, "Eve", "a", 20, 0⟩], [], 2, 1, 1⟩) ∧
    Sqlite.create_user_run true ⟨[⟨1, "Eve", "a", 20, 0⟩], [], 2, 1, 1⟩ "Ada" "a" 30 =
      Except.error Sqlite.SqErr.operational ∧
    Sqlite.create_post_run true ⟨[⟨1, "Eve", "a", 20, 0⟩], [], 2, 1, 1⟩ 1 "t" "c" =
      Except.error Sqlite.SqErr.operational ∧
    Sqlite.get_all_users_run true ⟨[⟨1, "Eve", "a", 20, 0⟩], [], 2, 1, 1⟩ =
      Except.error Sqlite.SqErr.operational ∧
    Sqlite.get_user_posts_run true ⟨[⟨1, "Eve", "a", 20, 0⟩], [], 2, 1, 1⟩ 1 =
      Except.error Sqlite.SqErr.operational ∧
    Sqlite.delete_user_run true ⟨[⟨1, "Eve", "a", 20, 0⟩], [], 2, 1, 1⟩ 1 =
      Except.error Sqlite.SqErr.operational :=
  C3_amended_error_containment true ⟨[⟨1, "Eve", "a", 20, 0⟩], [], 2, 1, 1⟩
    "Ada" "a" "t" "c" 30 1 Mongo.init_database "1" (by decide)

/-- Counterexample to C4 as stated: with an orphaned post owned by the
absent identifier 5, delete_user 5 returns false but changes the
store, deleting that post, so the call is not a no-op. -/
theorem C4_counterexample_orphan_deleted :
    (∀ v ∈ (⟨[], [⟨1, 5, "Hello", "World", 0⟩], 1, 2, 1⟩ : Sqlite.DB).users, v.id ≠ 5) ∧
    (Sqlite.delete_user ⟨[], [⟨1, 5, "Hello", "World", 0⟩], 1, 2, 1⟩ 5).1 = false ∧
    (Sqlite.delete_user ⟨[], [⟨1, 5, "Hello", "World", 0⟩], 1, 2, 1⟩ 5).2 ≠
      ⟨[], [⟨1, 5, "Hello", "World", 0⟩], 1, 2, 1⟩ := by
  decide

/-- C4 amended: deleting an identifier that matches no stored user
returns false and leaves the stored users unchanged; the posts owned
by that identifier are still deleted, so the whole store is unchanged
exactly when no such orphaned posts exist. -/
theorem C4_amended_delete_missing_user
    (db : Sqlite.DB) (uid : Int) (mdb : Mongo.DB) (u : String)
    (h1 : ∀ v ∈ db.users, v.id ≠ uid)
    (h2 : ∀ v ∈ mdb.users, v._id ≠ Mongo.normalizeId u) :
    (Sqlite.delete_user db uid).1 = false ∧
    (Sqlite.delete_user db uid).2.users = db.users ∧
    (Sqlite.delete_user db uid).2.posts =
      db.posts.filter (fun p => !(p.user_id == uid)) ∧
    ((∀ p ∈ db.posts, p.user_id ≠ uid) → (Sqlite.delete_user db uid).2 = db) ∧
    (Mongo.delete_user mdb u).1 = false ∧
    (Mongo.delete_user mdb u).2.users = mdb.users ∧
    (Mongo.delete_user mdb u).2.posts =
      mdb.posts.filter (fun p => !(p.user_id == Mongo.normalizeId u)) ∧
    ((∀ p ∈ mdb.posts, p.user_id ≠ Mongo.normalizeId u) → (Mongo.delete_user mdb u).2 = mdb) := by
  refine ⟨?_, ?_, rfl, ?_, ?_, ?_, rfl, ?_⟩
  · simp [Sqlite.delete_user, List.any_eq_false]
    exact h1
  · simp only [Sqlite.delete_user]
    exact List.filter_eq_self.mpr (by simpa using h1)
  · intro hp
    simp only [Sqlite.delete_user]
    have hu : db.users.filter (fun v => !(v.id == uid)) = db.users :=
      List.filter_eq_self.mpr (by simpa using h1)
    have hpp : db.posts.filter (fun p => !(p.user_id == uid)) = db.posts :=
      List.filter_eq_self.mpr (by simpa using hp)
    simp [hu, hpp]
  · simp [Mongo.delete_user, List.any_eq_false]
    exact h2
  · simp only [Mongo.delete_user]
    exact List.eraseP_of_forall_not (by simpa using h2)
  · intro hp
    simp only [Mongo.delete_user]
    have hu : mdb.users.eraseP (fun v => v._id == Mongo.normalizeId u) = mdb.users :=
      List.eraseP_of_forall_not (by simpa using h2)
    have hpp : mdb.posts.filter (fun p => !(p.user_id == Mongo.normalizeId u)) = mdb.posts :=
      List.filter_eq_self.mpr (by simpa using hp)
    simp [hu, hpp]

/-- Witness for the amended C4 at concrete stores without user 5. -/
theorem C4_amended_witness :
    (Sqlite.delete_user ⟨[⟨1, "Ada", "a", 30, 0⟩], [⟨1, 5, "t", "c", 1⟩], 2, 2, 2⟩ 5).1 = false ∧
    (Sqlite.delete_user ⟨[⟨1, "Ada", "a", 30, 0⟩], [⟨1, 5, "t", "c", 1⟩], 2, 2, 2⟩ 5).2.users =
      (⟨[⟨1, "Ada", "a", 30, 0⟩], [⟨1, 5, "t", "c", 1⟩], 2, 2, 2⟩ : Sqlite.DB).users ∧
    (Sqlite.delete_user ⟨[⟨1, "Ada", "a", 30, 0⟩], [⟨1, 5, "t", "c", 1⟩], 2, 2, 2⟩ 5).2.posts =
      (⟨[⟨1, "Ada", "a", 30, 0⟩], [⟨1, 5, "t", "c", 1⟩], 2, 2, 2⟩ : Sqlite.DB).posts.filter
        (fun p => !(p.user_id == 5)) ∧
    ((∀ p ∈ (⟨[⟨1, "Ada", "a", 30, 0⟩], [⟨1, 5, "t", "c", 1⟩], 2, 2, 2⟩ : Sqlite.DB).posts,
        p.user_id ≠ 5) →
      (Sqlite.delete_user ⟨[⟨1, "Ada", "a", 30, 0⟩], [⟨1, 5, "t", "c", 1⟩], 2, 2, 2⟩ 5).2 =
        ⟨[⟨1, "Ada", "a", 30, 0⟩], [⟨1, 5, "t", "c", 1⟩], 2, 2, 2⟩) ∧
    (Mongo.delete_user Mongo.init_database "u5").1 = false ∧
    (Mongo.delete_user Mongo.init_database "u5").2.users = Mongo.init_database.users ∧
    (Mongo.delete_user Mongo.init_database "u5").2.posts =
      Mongo.init_database.posts.filter
        (fun p => !(p.user_id == Mongo.normalizeId "u5")) ∧
    ((∀ p ∈ Mongo.init_database.posts, p.user_id ≠ Mongo.normalizeId "u5") →
      (Mongo.delete_user Mongo.init_database "u5").2 = Mongo.init_database) :=
  C4_amended_delete_missing_user
    ⟨[⟨1, "Ada", "a", 30, 0⟩], [⟨1, 5, "t", "c", 1⟩], 2, 2, 2⟩ 5
    Mongo.init_database "u5" (by decide) (by decide)

/-- C6: create_post inserts the post and returns the fresh identifier
for every state and every user identifier, existing or not; the result
does not consult the stored users at all. -/
theorem C6_create_post_never_checks_user
    (db : Sqlite.DB) (uid : Int) (t c : String) (us : List Sqlite.User)
    (mdb : Mongo.DB) (u : String) (mus : List Mongo.User) :
    (Sqlite.create_post db uid t c).1 = db.nextPostId ∧
    (Sqlite.create_post db uid t c).2.posts =
      db.posts ++ [⟨db.nextPostId, uid, t, c, db.clock⟩] ∧
    (Sqlite.create_post db uid t c).2.users = db.users ∧
    (Sqlite.create_post { db with users := us } uid t c).1 =
      (Sqlite.create_post db uid t c).1 ∧
    (Mongo.create_post mdb u t c).1 = some (Mongo.keyToStr (Mongo.freshId mdb)) ∧
    (Mongo.create_post mdb u t c).2.posts =
      mdb.posts ++ [⟨Mongo.freshId mdb, Mongo.normalizeId u, t, c, mdb.clock⟩] ∧
    (Mongo.create_post mdb u t c).2.users = mdb.users ∧
    (Mongo.create_post { mdb with users := mus } u t c).1 =
      (Mongo.create_post mdb u t c).1 :=
  ⟨rfl, rfl, rfl, rfl, rfl, rfl, rfl, rfl⟩

/-- C9: in the sqlite variant, deleting an identifier that matches no
user still removes every post owned by that identifier while returning
false, the return value being the row count of the users-table delete
alone. -/
theorem C9_sqlite_delete_missing_user_removes_orphans
    (db : Sqlite.DB) (uid : Int)
    (h : ∀ v ∈ db.users, v.id ≠ uid) :
    (Sqlite.delete_user db uid).1 = false ∧
    (Sqlite.delete_user db uid).2.posts =
      db.posts.filter (fun p => !(p.user_id == uid)) ∧
    (∀ p ∈ (Sqlite.delete_user db uid).2.posts, p.user_id ≠ uid) := by
  refine ⟨?_, rfl, ?_⟩
  · simp [Sqlite.delete_user, List.any_eq_false]
    exact h
  · intro p hp
    simp [Sqlite.delete_user, List.mem_filter] at hp
    exact hp.2

/-- Witness for C9 at a concrete store holding one orphaned post. -/
theorem C9_witness :
    (Sqlite.delete_user ⟨[], [⟨1, 7, "a", "b", 0⟩], 1, 2, 1⟩ 7).1 = false ∧
    (Sqlite.delete_user ⟨[], [⟨1, 7, "a", "b", 0⟩], 1, 2, 1⟩ 7).2.posts =
      (⟨[], [⟨1, 7, "a", "b", 0⟩], 1, 2, 1⟩ : Sqlite.DB).posts.filter
        (fun p => !(p.user_id == 7)) ∧
    (∀ p ∈ (Sqlite.delete_user ⟨[], [⟨1, 7, "a", "b", 0⟩], 1, 2, 1⟩ 7).2.posts,
        p.user_id ≠ 7) :=
  C9_sqlite_delete_missing_user_removes_orphans
    ⟨[], [⟨1, 7, "a", "b", 0⟩], 1, 2, 1⟩ 7 (by decide)

/-- C5: get_user_posts returns exactly the posts owned by the given
identifier (as a permutation of the matching rows, projected to the
returned shape) and in descending creation-time order, in both
variants. -/
theorem C5_user_posts_exactly_owned_sorted_desc
    (db : Sqlite.DB) (uid : Int) (mdb : Mongo.DB) (u : String) :
    (Sqlite.get_user_posts db uid).Perm
      ((db.posts.filter (fun p => p.user_id == uid)).map Sqlite.postToRow) ∧
    (Sqlite.get_user_posts db uid).Pairwise (fun a b => b.created_at ≤ a.created_at) ∧
    (Mongo.get_user_posts mdb u).Perm
      ((mdb.posts.filter (fun p => p.user_id == Mongo.normalizeId u)).map Mongo.postToView) ∧
    (Mongo.get_user_posts mdb u).Pairwise (fun a b => b.created_at ≤ a.created_at) := by
  refine ⟨List.Perm.map Sqlite.postToRow
            (List.perm_insertionSort Sqlite.postLe
              (db.posts.filter (fun p => p.user_id == uid))), ?_,
          List.Perm.map Mongo.postToView
            (List.perm_insertionSort Mongo.postLe
              (mdb.posts.filter (fun p => p.user_id == Mongo.normalizeId u))), ?_⟩
  · exact List.Pairwise.map Sqlite.postToRow (fun a b hab => hab)
      (List.sorted_insertionSort Sqlite.postLe
        (db.posts.filter (fun p => p.user_id == uid)))
  · exact List.Pairwise.map Mongo.postToView (fun a b hab => hab)
      (List.sorted_insertionSort Mongo.postLe
        (mdb.posts.filter (fun p => p.user_id == Mongo.normalizeId u)))

/-- Helper for C7, sqlite variant: a block of create_user calls whose
emails are pairwise distinct and fresh for the current store succeeds
at every step and grows the users table by one row per call. -/
theorem sqlite_createUsersAcc_spec :
    ∀ (entries : List Entry) (db : Sqlite.DB),
      (entries.map Entry.email).Nodup →
      (∀ x ∈ entries, Sqlite.emailTaken db x.email = false) →
      (Sqlite.createUsersAcc db entries).1.all Option.isSome = true ∧
      (Sqlite.createUsersAcc db entries).2.users.length =
        db.users.length + entries.length := by
  intro entries
  induction entries with
  | nil =>
      intro db _ _
      exact ⟨rfl, by simp [Sqlite.createUsersAcc]⟩
  | cons e rest ih =>
      intro db hnodup hfresh
      have he : Sqlite.emailTaken db e.email = false :=
        hfresh e (List.mem_cons_self e rest)
      have hne : ∀ x ∈ rest, e.email ≠ x.email := by
        intro x hx hEq
        exact (List.nodup_cons.mp hnodup).1 (hEq ▸ List.mem_map_of_mem Entry.email hx)
      have hstep : Sqlite.create_user db e.name e.email e.age =
          (some db.nextUserId,
           { db with
              users := db.users ++ [⟨db.nextUserId, e.name, e.email, e.age, db.clock⟩],
              nextUserId := db.nextUserId + 1,
              clock := db.clock + 1 }) := by
        simp [Sqlite.create_user, he]
      have hfresh' : ∀ x ∈ rest,
          Sqlite.emailTaken
            { db with
               users := db.users ++ [⟨db.nextUserId, e.name, e.email, e.age, db.clock⟩],
               nextUserId := db.nextUserId + 1,
               clock := db.clock + 1 } x.email = false := by
        intro x hx
        have h1 := hfresh x (List.mem_cons_of_mem e hx)
        simp only [Sqlite.emailTaken] at h1 ⊢
        simp [List.any_append, h1, hne x hx]
      obtain ⟨ha, hl⟩ := ih
        { db with
           users := db.users ++ [⟨db.nextUserId, e.name, e.email, e.age, db.clock⟩],
           nextUserId := db.nextUserId + 1,
           clock := db.clock + 1 }
        (List.nodup_cons.mp hnodup).2 hfresh'
      constructor
      · simp [Sqlite.createUsersAcc, hstep, ha]
      · simp only [Sqlite.createUsersAcc, hstep]
        rw [hl]
        simp [List.length_append]
        omega

/-- Helper for C7, mongo variant: same statement over the document
store. -/
theorem mongo_createUsersAcc_spec :
    ∀ (entries : List Entry) (db : Mongo.DB),
      (entries.map Entry.email).Nodup →
      (∀ x ∈ entries, Mongo.emailTaken db x.email = false) →
      (Mongo.createUsersAcc db entries).1.all Option.isSome = true ∧
      (Mongo.createUsersAcc db entries).2.users.length =
        db.users.length + entries.length := by
  intro entries
  induction entries with
  | nil =>
      intro db _ _
      exact ⟨rfl, by simp [Mongo.createUsersAcc]⟩
  | cons e rest ih =>
      intro db hnodup hfresh
      have he : Mongo.emailTaken db e.email = false :=
        hfresh e (List.mem_cons_self e rest)
      have hne : ∀ x ∈ rest, e.email ≠ x.email := by
        intro x hx hEq
        exact (List.nodup_cons.mp hnodup).1 (hEq ▸ List.mem_map_of_mem Entry.email hx)
      have hstep : Mongo.create_user db e.name e.email e.age =
          (some (Mongo.keyToStr (Mongo.freshId db)),
           { db with
              users := db.users ++ [⟨Mongo.freshId db, e.name, e.email, e.age, db.clock⟩],
              counter := db.counter + 1,
              clock := db.clock + 1 }) := by
        simp [Mongo.create_user, he]
      have hfresh' : ∀ x ∈ rest,
          Mongo.emailTaken
            { db with
               users := db.users ++ [⟨Mongo.freshId db, e.name, e.email, e.age, db.clock⟩],
               counter := db.counter + 1,
               clock := db.clock + 1 } x.email = false := by
        intro x hx
        have h1 := hfresh x (List.mem_cons_of_mem e hx)
        simp only [Mongo.emailTaken] at h1 ⊢
        simp [List.any_append, h1, hne x hx]
      obtain ⟨ha, hl⟩ := ih
        { db with
           users := db.users ++ [⟨Mongo.freshId db, e.name, e.email, e.age, db.clock⟩],
           counter := db.counter + 1,
           clock := db.clock + 1 }
        (List.nodup_cons.mp hnodup).2 hfresh'
      constructor
      · simp [Mongo.createUsersAcc, hstep, ha]
      · simp only [Mongo.createUsersAcc, hstep]
        rw [hl]
        simp [List.length_append]
        omega

/-- C7: starting from the empty store, running create_user for a list
of requests with pairwise distinct emails succeeds on every call and
makes get_all_users return exactly one entry per call, in both
variants. -/
theorem C7_create_n_users_then_list_n
    (entries mentries : List Entry)
    (h1 : (entries.map Entry.email).Nodup)
    (h2 : (mentries.map Entry.email).Nodup) :
    (Sqlite.createUsersAcc Sqlite.init_database entries).1.all Option.isSome = true ∧
    (Sqlite.get_all_users
        (Sqlite.createUsersAcc Sqlite.init_database entries).2).length = entries.length ∧
    (Mongo.createUsersAcc Mongo.init_database mentries).1.all Option.isSome = true ∧
    (Mongo.get_all_users
        (Mongo.createUsersAcc Mongo.init_database mentries).2).length = mentries.length := by
  obtain ⟨ha, hl⟩ :=
    sqlite_createUsersAcc_spec entries Sqlite.init_database h1 (fun x _ => rfl)
  obtain ⟨ha2, hl2⟩ :=
    mongo_createUsersAcc_spec mentries Mongo.init_database h2 (fun x _ => rfl)
  refine ⟨ha, ?_, ha2, ?_⟩
  · simpa [Sqlite.get_all_users, Sqlite.init_database] using hl
  · simpa [Mongo.get_all_users, Mongo.init_database] using hl2

/-- Witness for C7: two distinct emails on sqlite, one on mongo. -/
theorem C7_witness :
    (Sqlite.createUsersAcc Sqlite.init_database
        [⟨"Ada", "ada@x", 30⟩, ⟨"Bob", "bob@x", 25⟩]).1.all Option.isSome = true ∧
    (Sqlite.get_all_users
        (Sqlite.createUsersAcc Sqlite.init_database
          [⟨"Ada", "ada@x", 30⟩, ⟨"Bob", "bob@x", 25⟩]).2).length = 2 ∧
    (Mongo.createUsersAcc Mongo.init_database
        [⟨"Ada", "ada@x", 30⟩]).1.all Option.isSome = true ∧
    (Mongo.get_all_users
        (Mongo.createUsersAcc Mongo.init_database
          [⟨"Ada", "ada@x", 30⟩]).2).length = 1 :=
  C7_create_n_users_then_list_n
    [⟨"Ada", "ada@x", 30⟩, ⟨"Bob", "bob@x", 25⟩] [⟨"Ada", "ada@x", 30⟩]
    (by decide) (by decide)

/-- C8: when the numeric input line does not parse as an integer, each
menu handler that parses one (sqlite choices 1, 3, 4, 5 and mongo
choice 1; the other mongo choices parse nothing) ends in its
except-ValueError branch with the diagnostic, leaving the store
untouched and never reaching the repository call; the loop then
continues normally. -/
theorem C8_invalid_numeric_input_caught
    (db : Sqlite.DB) (mdb : Mongo.DB) (s n e t c cf : String)
    (h : pyParseInt s = none) :
    Sqlite.choice1 db n e s = (db, Step.invalidNumber) ∧
    Sqlite.choice3 db s t c = (db, Step.invalidNumber) ∧
    Sqlite.choice4 db s = (db, Step.invalidNumber) ∧
    Sqlite.choice5 db s cf = (db, Step.invalidNumber) ∧
    Mongo.choice1 mdb n e s = (mdb, Step.invalidNumber) := by
  simp [Sqlite.choice1, Sqlite.choice3, Sqlite.choice4, Sqlite.choice5,
        Mongo.choice1, h]

/-- Witness for C8 at the non-numeric input line abc. -/
theorem C8_witness :
    Sqlite.choice1 Sqlite.init_database "Ada" "a" "abc" =
      (Sqlite.init_database, Step.invalidNumber) ∧
    Sqlite.choice3 Sqlite.init_database "abc" "t" "c" =
      (Sqlite.init_database, Step.invalidNumber) ∧
    Sqlite.choice4 Sqlite.init_database "abc" =
      (Sqlite.init_database, Step.invalidNumber) ∧
    Sqlite.choice5 Sqlite.init_database "abc" "y" =
      (Sqlite.init_database, Step.invalidNumber) ∧
    Mongo.choice1 Mongo.init_database "Ada" "a" "abc" =
      (Mongo.init_database, Step.invalidNumber) :=
  C8_invalid_numeric_input_caught Sqlite.init_database Mongo.init_database
    "abc" "Ada" "a" "t" "c" "y" (by decide)

/-- C10: the mongo variant applies the same key normalization in
create_post and get_user_posts, so a post created with a user id
string is returned by an immediately following get_user_posts on the
same string, carrying the created title and content. -/
theorem C10_mongo_created_post_found_by_same_key
    (mdb : Mongo.DB) (u t c : String) :
    (Mongo.create_post mdb u t c).1 = some (Mongo.keyToStr (Mongo.freshId mdb)) ∧
    ∃ p ∈ Mongo.get_user_posts (Mongo.create_post mdb u t c).2 u,
      p._id = Mongo.keyToStr (Mongo.freshId mdb) ∧
      p.user_id = Mongo.keyToStr (Mongo.normalizeId u) ∧
      p.title = t ∧ p.content = c := by
  refine ⟨rfl,
    Mongo.postToView ⟨Mongo.freshId mdb, Mongo.normalizeId u, t, c, mdb.clock⟩,
    ?_, rfl, rfl, rfl, rfl⟩
  simp only [Mongo.get_user_posts, Mongo.create_post]
  apply List.mem_map_of_mem
  rw [List.mem_insertionSort]
  simp [List.mem_filter]
